import Mathlib

/-!
Verification of the LFT AI Topology Generator (repository dcasseb/lft_ai)
against its natural-language specification.

The repository ships a README describing the `AITopologyGenerator` API
(`generate_topology`, `generate_and_save`, `validate_topology`), a Colab
notebook that constructs the generator with a try/except fallback from the
Hugging Face API backend to a local model, and dependency manifests.  The
implementation module `profissa_lft/ai_generator.py` itself is not among the
provided sources, so the core components (Backend Adapter, Generation
Invoker, Response Extractor, Validator) are modelled from the specification,
while the construction-time fallback of the notebook is embedded directly
from the notebook cell.

All text processing is done structurally over character lists so that every
definition evaluates by definitional reduction on concrete inputs.
-/

namespace LftAi

/-! ## Data model (spec section 3) -/

/-- Modelled from the spec: the two concrete generation backends. -/
inductive BackendKind where
  | Remote
  | Local
deriving DecidableEq, Repr

/-- Modelled from the spec: backend preference of a generation request. -/
inductive BackendPreference where
  | Remote
  | Local
  | AutoFallback
deriving DecidableEq, Repr

/-- Modelled from the spec: the `BackendError` taxonomy of section 7,
transient (`RateLimited`, `Unreachable`, `ResourceExhausted`) and fatal
(`AuthError`, `MalformedResponse`, `ModelUnavailable`). -/
inductive BackendError where
  | AuthError
  | RateLimited
  | MalformedResponse
  | Unreachable
  | ResourceExhausted
  | ModelUnavailable
deriving DecidableEq, Repr

/-- Modelled from the spec: transient backend errors are retried. -/
def BackendError.isTransient : BackendError → Bool
  | .RateLimited => true
  | .Unreachable => true
  | .ResourceExhausted => true
  | _ => false

/-- Modelled from the spec: fatal backend errors short-circuit retries. -/
def BackendError.isFatal (e : BackendError) : Bool :=
  !e.isTransient

/-- Modelled from the spec: a GenerationRequest, immutable per invocation.
Durations are modelled as natural numbers of time units. -/
structure GenerationRequest where
  description : String
  backend_preference : BackendPreference
  model_identifier : String
  max_attempts : Nat
  timeout : Nat
deriving DecidableEq, Repr

/-- Modelled from the spec: a RawCompletion produced by a successful
backend invocation. -/
structure RawCompletion where
  text : String
  backend_used : BackendKind
  attempt_count : Nat
  elapsed : Nat
deriving DecidableEq, Repr

/-- Modelled from the spec: terminal generation failure, wrapping the last
error observed on each backend tried. -/
structure GenerationError where
  last_errors : List (BackendKind × BackendError)
deriving DecidableEq, Repr

/-! ## Generation Invoker (spec section 4.3)

The observable behaviour of a backend is modelled as a function from the
attempt index to either a completion text or a `BackendError`; the
invoker is deterministic given that behaviour. -/

/-- Behaviour of the world: what each backend returns on each attempt. -/
def BackendBehavior : Type :=
  BackendKind → Nat → Except BackendError String

/-- Modelled from the spec: exponential backoff delay before the retry
following failed attempt `k` (zero-based): the base delay doubles each
retry and is bounded by a fixed ceiling. -/
def backoffDelay (base ceiling k : Nat) : Nat :=
  min (base * 2 ^ k) ceiling

/-- Outcome of running the retry loop on a single backend: final result,
number of invocations performed, and the backoff delays slept between
consecutive attempts, in order. -/
structure AttemptTrace where
  result : Except BackendError String
  invocations : Nat
  delays : List Nat
deriving Repr

/-- Modelled from the spec: the retry loop on one backend.  `fuel` is the
number of attempts still allowed, `k` the zero-based index of the next
attempt.  A success is terminal; a transient error is retried (after a
backoff delay) while attempts remain; a fatal error, or a transient error
with no attempts remaining, stops the loop on this backend. -/
def runAttempts (beh : Nat → Except BackendError String) (base ceiling : Nat) :
    Nat → Nat → AttemptTrace
  | 0, _ => ⟨Except.error BackendError.Unreachable, 0, []⟩
  | n + 1, k =>
    match beh k with
    | Except.ok t => ⟨Except.ok t, 1, []⟩
    | Except.error e =>
      if e.isTransient && decide (0 < n) then
        let tr := runAttempts beh base ceiling n (k + 1)
        ⟨tr.result, tr.invocations + 1, backoffDelay base ceiling k :: tr.delays⟩
      else
        ⟨Except.error e, 1, []⟩

/-- Modelled from the spec: `SelectingBackend` resolves the preference to
the ordered list of backends to try. -/
def backendOrder : BackendPreference → List BackendKind
  | .Remote => [BackendKind.Remote]
  | .Local => [BackendKind.Local]
  | .AutoFallback => [BackendKind.Remote, BackendKind.Local]

/-- Outcome of the whole invocation: the result plus, for each backend
tried, the number of invocations performed on it. -/
structure InvokeTrace where
  result : Except GenerationError RawCompletion
  perBackend : List (BackendKind × Nat)
deriving Repr

/-- Modelled from the spec: try the backends in order; on failure of one
backend fall back to the next; when none remains, fail with a
`GenerationError` carrying the last error per backend tried. -/
def invokeBackends (beh : BackendBehavior) (maxAttempts base ceiling : Nat) :
    List BackendKind → InvokeTrace
  | [] => ⟨Except.error ⟨[]⟩, []⟩
  | b :: rest =>
    let tr := runAttempts (beh b) base ceiling maxAttempts 0
    match tr.result with
    | Except.ok t =>
        ⟨Except.ok ⟨t, b, tr.invocations, 0⟩, [(b, tr.invocations)]⟩
    | Except.error e =>
      let tail := invokeBackends beh maxAttempts base ceiling rest
      match tail.result with
      | Except.ok r => ⟨Except.ok r, (b, tr.invocations) :: tail.perBackend⟩
      | Except.error g =>
          ⟨Except.error ⟨(b, e) :: g.last_errors⟩,
            (b, tr.invocations) :: tail.perBackend⟩

/-- Modelled from the spec: `invoke(request)` resolves the backend order
from the request and runs the retry/fallback state machine. -/
def invoke (beh : BackendBehavior) (base ceiling : Nat)
    (req : GenerationRequest) : InvokeTrace :=
  invokeBackends beh req.max_attempts base ceiling
    (backendOrder req.backend_preference)

/-! ## Character-level text utilities

Structural replacements for the string-splitting library functions, so
that concrete evaluations reduce in the kernel. -/

/-- Newline test by character code. -/
def newlineChar (c : Char) : Bool := c.toNat = 10

/-- Whitespace test by character code (space, tab, carriage return,
newline). -/
def wsChar (c : Char) : Bool :=
  c.toNat = 32 || c.toNat = 9 || c.toNat = 13 || c.toNat = 10

/-- Opening-parenthesis test by character code. -/
def isLparChar (c : Char) : Bool := c.toNat = 40

/-- Closing-parenthesis test by character code. -/
def isRparChar (c : Char) : Bool := c.toNat = 41

/-- Comma test by character code. -/
def isCommaChar (c : Char) : Bool := c.toNat = 44

/-- Full-stop test by character code. -/
def isDotChar (c : Char) : Bool := c.toNat = 46

/-- Space test by character code. -/
def isSpaceChar (c : Char) : Bool := c.toNat = 32

/-- Single- or double-quote test by character code. -/
def isQuoteChar (c : Char) : Bool := c.toNat = 34 || c.toNat = 39

/-- Underscore test by character code. -/
def isUnderscoreChar (c : Char) : Bool := c.toNat = 95

/-- Drop leading and trailing whitespace characters. -/
def trimChars (l : List Char) : List Char :=
  ((l.dropWhile wsChar).reverse.dropWhile wsChar).reverse

/-- Split a character list at every character satisfying `p`; the
separators are consumed.  An empty input yields one empty part. -/
def splitByAux (p : Char → Bool) : List Char → List Char → List (List Char)
  | acc, [] => [acc.reverse]
  | acc, c :: cs =>
    if p c then acc.reverse :: splitByAux p [] cs
    else splitByAux p (c :: acc) cs

/-- Split a character list at every character satisfying `p`. -/
def splitBy (p : Char → Bool) (l : List Char) : List (List Char) :=
  splitByAux p [] l

/-- Split at the first occurrence of the (nonempty) separator sequence,
returning the parts before and after it, or `none` when it does not
occur. -/
def splitFirst (sep : List Char) : List Char → Option (List Char × List Char)
  | [] => none
  | c :: cs =>
    if sep.isPrefixOf (c :: cs) then
      some ([], (c :: cs).drop sep.length)
    else
      match splitFirst sep cs with
      | some (pre, post) => some (c :: pre, post)
      | none => none

/-- Numeric value of a nonempty all-digit character list. -/
def digitsToNat? (l : List Char) : Option Nat :=
  if !l.isEmpty && l.all (fun c => c.isDigit) then
    some (l.foldl (fun a c => a * 10 + (c.toNat - 48)) 0)
  else
    none

/-- Split a completion text into lines. -/
def toLines (t : String) : List (List Char) :=
  splitBy newlineChar t.toList

/-- Join lines back into a text with newline separators. -/
def joinLines (ls : List (List Char)) : String :=
  ⟨(ls.intersperse [Char.ofNat 10]).flatten⟩

/-! ## Response Extractor (spec section 4.4) -/

/-- Modelled from the spec: how the code payload was obtained from the raw
completion. -/
inductive ExtractionMethod where
  | FencedBlock
  | HeuristicSlice
  | RawPassthrough
deriving DecidableEq, Repr

/-- Modelled from the spec: candidate code handed to the Validator. -/
structure CandidateCode where
  source_text : String
  extraction_method : ExtractionMethod
deriving DecidableEq, Repr

/-- The three-character fence marker of a markdown code region. -/
def fenceSeq : List Char := "```".toList

/-- A line that opens or closes a fenced code region in markdown-style
model output. -/
def isFenceLine (l : List Char) : Bool :=
  fenceSeq.isPrefixOf (trimChars l)

/-- A line matching an import/definition pattern typical of the target
grammar (the generated code always begins with module imports). -/
def isCodeStartLine (l : List Char) : Bool :=
  ("import ".toList).isPrefixOf l || ("from ".toList).isPrefixOf l

/-- First fenced code region of a list of lines: the lines strictly
between the first fence line and the next fence line (or the end of the
text when the fence is unclosed). -/
def fencedRegion : List (List Char) → Option (List (List Char))
  | [] => none
  | l :: rest =>
    if isFenceLine l then
      some (rest.takeWhile (fun x => !isFenceLine x))
    else
      fencedRegion rest

/-- Remaining lines from the first import/definition line on, when one
exists. -/
def sliceFromCodeStart : List (List Char) → Option (List (List Char))
  | [] => none
  | l :: rest =>
    if isCodeStartLine l then some (l :: rest) else sliceFromCodeStart rest

/-- Modelled from the spec: the total, ordered extraction strategy.
First fenced code region verbatim when one exists; else the text from the
first import/definition line; else the full completion unchanged. -/
def extract (raw : RawCompletion) : CandidateCode :=
  match fencedRegion (toLines raw.text) with
  | some region => ⟨joinLines region, ExtractionMethod.FencedBlock⟩
  | none =>
    match sliceFromCodeStart (toLines raw.text) with
    | some tail => ⟨joinLines tail, ExtractionMethod.HeuristicSlice⟩
    | none => ⟨raw.text, ExtractionMethod.RawPassthrough⟩

/-! ## Validator (spec section 4.5)

The target grammar is the fixed LFT operation set seen in the README
examples: construction (`x = Host("h1")`), instantiation
(`x.instantiate()`), link establishment (`x.connect(y, ...)`), address
assignment (`x.setIp(addr, prefixLen, iface)`) and gateway assignment
(`x.setDefaultGateway(addr, iface)`).  Auxiliary statements are permitted
and ignored. -/

/-- Identifier of a structural validation rule. -/
inductive RuleId where
  | SyntaxError
  | UndeclaredReference
  | UninstantiatedDevice
  | SelfLink
  | MalformedAddress
deriving DecidableEq, Repr

/-- A single structural rule failure. -/
structure Violation where
  rule_id : RuleId
  message : String
  location : Nat
deriving DecidableEq, Repr

/-- Modelled from the spec: the terminal validation artifact. -/
structure ValidationReport where
  is_valid : Bool
  violations : List Violation
  parsed_entities : List String
deriving DecidableEq, Repr

/-- Drop surrounding whitespace and every quote character of a string
argument token. -/
def stripQuotes (l : List Char) : List Char :=
  trimChars (l.filter (fun c => !isQuoteChar c))

/-- A device identifier: nonempty, alphanumeric or underscore. -/
def identOk (l : List Char) : Bool :=
  !l.isEmpty && l.all (fun c => c.isAlphanum || isUnderscoreChar c)

/-- Dotted-quad IPv4 address: four octets, each a numeral at most 255. -/
def isValidIp (l : List Char) : Bool :=
  match splitBy isDotChar l with
  | [a, b, c, d] =>
    [a, b, c, d].all (fun oct =>
      match digitsToNat? oct with
      | some n => n ≤ 255
      | none => false)
  | _ => false

/-- Address/prefix pair validity: a dotted-quad address together with a
prefix length numeral at most 32. -/
def isValidAddressPair (addr pfx : String) : Bool :=
  isValidIp (stripQuotes addr.toList) &&
    (match digitsToNat? pfx.toList with
     | some n => n ≤ 32
     | none => false)

/-- A top-level statement classified against the recognized operation set
of the domain grammar. -/
inductive Stmt where
  | importStmt
  | construct (ident : String)
  | instantiate (ident : String)
  | link (ident other : String)
  | address (ident addr pfx : String)
  | gateway (ident : String)
  | other
deriving DecidableEq, Repr

/-- First argument of a call argument list: characters up to the first
comma or closing parenthesis, trimmed. -/
def firstArg (args : List Char) : List Char :=
  trimChars (args.takeWhile (fun c => !isCommaChar c && !isRparChar c))

/-- Second argument of a call argument list, trimmed and cut at the
closing parenthesis. -/
def secondArg (args : List Char) : List Char :=
  trimChars
    ((((splitBy isCommaChar args).drop 1).headD []).takeWhile
      (fun c => !isRparChar c))

/-- The assignment separator of a construction statement. -/
def assignSeq : List Char := " = ".toList

/-- Classify one source line against the recognized operation set; a line
matching none of the recognized operations is auxiliary (`other`). -/
def parseLine (l : List Char) : Stmt :=
  let s := trimChars l
  if s.isEmpty then Stmt.other
  else if isCodeStartLine s then Stmt.importStmt
  else
    match splitFirst assignSeq s with
    | some (lhs, rhs) =>
      if (splitFirst assignSeq rhs).isNone && identOk lhs &&
          rhs.any isLparChar then
        Stmt.construct ⟨lhs⟩
      else
        Stmt.other
    | none =>
      let obj := s.takeWhile
        (fun c => !isDotChar c && !isLparChar c && !isSpaceChar c)
      if identOk obj &&
          (match s.drop obj.length with
           | c :: _ => isDotChar c
           | [] => false) then
        let rest := s.drop (obj.length + 1)
        if ("instantiate(".toList).isPrefixOf rest then
          Stmt.instantiate ⟨obj⟩
        else if ("connect(".toList).isPrefixOf rest then
          Stmt.link ⟨obj⟩ ⟨firstArg (rest.drop 8)⟩
        else if ("setIp(".toList).isPrefixOf rest then
          Stmt.address ⟨obj⟩ ⟨stripQuotes (firstArg (rest.drop 6))⟩
            ⟨secondArg (rest.drop 6)⟩
        else if ("setDefaultGateway(".toList).isPrefixOf rest then
          Stmt.gateway ⟨obj⟩
        else
          Stmt.other
      else
        Stmt.other

/-- Host-language well-formedness of a line, modelled shallowly as
balanced parentheses. -/
def parensBalancedFrom : Nat → List Char → Bool
  | depth, [] => depth = 0
  | depth, c :: cs =>
    if isLparChar c then
      parensBalancedFrom (depth + 1) cs
    else if isRparChar c then
      match depth with
      | 0 => false
      | d + 1 => parensBalancedFrom d cs
    else
      parensBalancedFrom depth cs

/-- A line is well formed when its parentheses balance. -/
def wellFormedLine (l : List Char) : Bool :=
  parensBalancedFrom 0 l

/-- Modelled from the spec: parse the source text into located, classified
top-level statements; a host-language parse failure yields `none`. -/
def parseText (t : String) : Option (List (Nat × Stmt)) :=
  let ls := toLines t
  if ls.all wellFormedLine then
    some (ls.enum.map (fun p => (p.1, parseLine p.2)))
  else
    none

/-- Device identifiers referenced by one classified statement. -/
def stmtEntities : Stmt → List String
  | Stmt.construct x => [x]
  | Stmt.instantiate x => [x]
  | Stmt.link a b => [a, b]
  | Stmt.address a _ _ => [a]
  | Stmt.gateway a => [a]
  | _ => []

/-- Append an entity unless already present (first occurrence kept). -/
def addEntity (es : List String) (e : String) : List String :=
  if es.contains e then es else es ++ [e]

/-- All device identifiers referenced by the classified statements, valid
or not, each listed once. -/
def collectEntities (stmts : List Stmt) : List String :=
  stmts.foldl (fun acc st => (stmtEntities st).foldl addEntity acc) []

/-- Violations contributed by one statement, given the devices constructed
and instantiated so far; each rule produces zero or one violation per
statement. -/
def stmtViolations (constructed instantiated : List String)
    (loc : Nat) : Stmt → List Violation
  | Stmt.link a b =>
    (if !constructed.contains a || !constructed.contains b then
      [⟨RuleId.UndeclaredReference,
        "link references a device with no prior construction", loc⟩]
     else []) ++
    (if (constructed.contains a && !instantiated.contains a) ||
        (constructed.contains b && !instantiated.contains b) then
      [⟨RuleId.UninstantiatedDevice,
        "link uses a constructed device before instantiation", loc⟩]
     else []) ++
    (if a = b then
      [⟨RuleId.SelfLink, "link names the same device twice", loc⟩]
     else [])
  | Stmt.address a addr pfx =>
    (if !constructed.contains a then
      [⟨RuleId.UndeclaredReference,
        "address assignment references a device with no prior construction",
        loc⟩]
     else []) ++
    (if !isValidAddressPair addr pfx then
      [⟨RuleId.MalformedAddress,
        "address assignment value is not a valid address and prefix pair",
        loc⟩]
     else [])
  | Stmt.gateway a =>
    if !constructed.contains a then
      [⟨RuleId.UndeclaredReference,
        "gateway assignment references a device with no prior construction",
        loc⟩]
    else []
  | _ => []

/-- Walk the statements in order, tracking constructed and instantiated
devices and accumulating violations. -/
def checkStmts (constructed instantiated : List String) :
    List (Nat × Stmt) → List Violation
  | [] => []
  | (loc, st) :: rest =>
    stmtViolations constructed instantiated loc st ++
      (match st with
       | Stmt.construct x => checkStmts (x :: constructed) instantiated rest
       | Stmt.instantiate x => checkStmts constructed (x :: instantiated) rest
       | _ => checkStmts constructed instantiated rest)

/-- Modelled from the spec: `validate` never fails; a parse failure yields
a single SyntaxError violation, otherwise the structural rules run over
the classified statements and `is_valid` holds exactly when no rule
produced a violation. -/
def validate (candidate : CandidateCode) : ValidationReport :=
  match parseText candidate.source_text with
  | none =>
    ⟨false,
      [⟨RuleId.SyntaxError, "source text is not syntactically well formed", 0⟩],
      []⟩
  | some stmts =>
    let vs := checkStmts [] [] stmts
    ⟨vs.isEmpty, vs, collectEntities (stmts.map Prod.snd)⟩

/-! ## The generator object and its callers

`profissa_lft/ai_generator.py` is absent from the sources; the README
documents the constructor `AITopologyGenerator(model_name, use_hf_api,
api_token)` and the notebook constructs it under a catch-all
try/except. -/

/-- The generator object as documented by the README constructor: a model
name, the backend selection flag, and an optional token. -/
structure AITopologyGenerator where
  model_name : String
  use_hf_api : Bool
  api_token : Option String
deriving DecidableEq, Repr

/-- Default model name from the README. -/
def defaultModelName : String := "deepseek-ai/DeepSeek-R1-0528"

/-- A constructor call: the environment decides whether it raises (with
arbitrary exception text); on no exception the generator is constructed
with exactly the arguments passed. -/
def constructGenerator (raises : Option String) (model : String)
    (flag : Bool) (tok : Option String) : Except String AITopologyGenerator :=
  match raises with
  | some e => Except.error e
  | none => Except.ok ⟨model, flag, tok⟩

/-- Embedded from the notebook cell: try `AITopologyGenerator()` (API
backend, defaults); on any exception whatsoever, construct
`AITopologyGenerator(use_hf_api=False)` instead.  No inspection of the
exception occurs. -/
def notebookInitGenerator (remoteRaises localRaises : Option String) :
    Except String AITopologyGenerator :=
  match constructGenerator remoteRaises defaultModelName true none with
  | Except.ok g => Except.ok g
  | Except.error _ =>
    constructGenerator localRaises defaultModelName false none

/-- Backend selected by a constructed generator; fixed for the lifetime
of the object by its `use_hf_api` flag. -/
def generatorPreference (g : AITopologyGenerator) : BackendPreference :=
  if g.use_hf_api then BackendPreference.Remote else BackendPreference.Local

/-- The generation request a constructed generator issues for a
description: its backend preference comes from the construction-time flag,
never from the individual call. -/
def generatorRequest (g : AITopologyGenerator) (description : String)
    (maxAttempts timeout : Nat) : GenerationRequest :=
  ⟨description, generatorPreference g, g.model_name, maxAttempts, timeout⟩

/-! ## File saving and the full pipeline -/

/-- A file system modelled as an association list from path to contents. -/
def writeFile (fs : List (String × String)) (path contents : String) :
    List (String × String) :=
  (path, contents) :: fs.filter (fun pc => pc.1 ≠ path)

/-- Contents at a path, when the file exists. -/
def readFile (fs : List (String × String)) (path : String) : Option String :=
  (fs.find? (fun pc => pc.1 = path)).map Prod.snd

/-- Modelled from the spec: `generate_and_save(description, output_file)`
(README API reference; `ai_generator.py` absent from the sources)
generates the topology code for the description, writes it to the output
file, and returns the path to the saved file.  Generation itself is an
abstract function supplied by the environment. -/
def generate_and_save (gen : String → String) (fs : List (String × String))
    (description output_file : String) : List (String × String) × String :=
  let code := gen description
  (writeFile fs output_file code, output_file)

/-- Modelled from the spec: the core generation pipeline
(invoke → extract → validate).  The `env` argument stands for ambient
global state such as environment variables: it is visible to the core but,
per the configuration-surface contract, never consulted — every
configuration item arrives explicitly in the request and the backend
behaviour. -/
def runGeneration (env : List (String × String)) (beh : BackendBehavior)
    (base ceiling : Nat) (req : GenerationRequest) :
    Except GenerationError (CandidateCode × ValidationReport) :=
  match (invoke beh base ceiling req).result with
  | Except.error g => Except.error g
  | Except.ok raw =>
    let cand := extract raw
    Except.ok (cand, validate cand)

/-- A hand-constructed well-formed code sample: for the two devices `h1`
and `s1`, construction, instantiation, link, address assignment and
gateway assignment appear in that order, following the README example. -/
def wellFormedSample : String :=
  "h1 = Host(\"h1\")\n" ++
  "s1 = Switch(\"s1\")\n" ++
  "h1.instantiate()\n" ++
  "s1.instantiate()\n" ++
  "h1.connect(s1, \"h1s1\", \"s1h1\")\n" ++
  "h1.setIp(\"10.0.0.1\", 24, \"h1s1\")\n" ++
  "s1.setIp(\"10.0.0.2\", 24, \"s1h1\")\n" ++
  "h1.setDefaultGateway(\"10.0.0.2\", \"h1s1\")\n" ++
  "s1.setDefaultGateway(\"10.0.0.1\", \"s1h1\")"

/-! ## Theorems -/

/-- C3: for every ValidationReport produced by `validate`, `is_valid =
true` holds if and only if the violations sequence is empty; no reachable
report has `is_valid = true` together with a non-empty violations
sequence. -/
theorem validate_is_valid_iff_no_violations (c : CandidateCode) :
    (validate c).is_valid = true ↔ (validate c).violations = [] := by
  unfold validate
  cases h : parseText c.source_text with
  | none => simp
  | some stmts => simp [List.isEmpty_iff]

/-- C2: the Validator is total and deterministic: every CandidateCode
yields a ValidationReport (totality is inherent in `validate` being a
function, witnessed by the first conjunct), and identical inputs yield
bit-identical reports. -/
theorem validate_total_and_deterministic (c₁ c₂ : CandidateCode) :
    (∃ report : ValidationReport, validate c₁ = report) ∧
      (c₁ = c₂ → validate c₁ = validate c₂) :=
  ⟨⟨validate c₁, rfl⟩, fun h => h ▸ rfl⟩

/-- Witness for C2 at a concrete candidate. -/
theorem validate_total_and_deterministic_witness :
    validate ⟨wellFormedSample, ExtractionMethod.FencedBlock⟩ =
      validate ⟨wellFormedSample, ExtractionMethod.FencedBlock⟩ :=
  (validate_total_and_deterministic
    ⟨wellFormedSample, ExtractionMethod.FencedBlock⟩
    ⟨wellFormedSample, ExtractionMethod.FencedBlock⟩).2 rfl

/-- C7: on the hand-constructed well-formed two-device sample, `validate`
returns `is_valid = true`, an empty violations sequence, and
`parsed_entities` containing both device identifiers. -/
theorem validate_round_trip_sample :
    (validate ⟨wellFormedSample, ExtractionMethod.FencedBlock⟩).is_valid
        = true ∧
      (validate ⟨wellFormedSample, ExtractionMethod.FencedBlock⟩).violations
        = [] ∧
      "h1" ∈ (validate
        ⟨wellFormedSample, ExtractionMethod.FencedBlock⟩).parsed_entities ∧
      "s1" ∈ (validate
        ⟨wellFormedSample, ExtractionMethod.FencedBlock⟩).parsed_entities := by
  decide

/-- C8: the core pipeline depends only on the configuration passed in
explicitly through the request and the backend behaviour; two runs that
receive identical explicit inputs behave identically regardless of the
ambient environment. -/
theorem runGeneration_env_independent (env₁ env₂ : List (String × String))
    (beh : BackendBehavior) (base ceiling : Nat) (req : GenerationRequest) :
    runGeneration env₁ beh base ceiling req
      = runGeneration env₂ beh base ceiling req := rfl

/-- C9: backend selection is fixed at construction time: if constructing
the generator with the remote API backend raises any exception of any
kind, the notebook constructs the generator with the local backend
(`use_hf_api = False`), with no classification of the error, and every
generation request issued by the fallback generator carries the Local
preference. -/
theorem construction_time_fallback (e₁ e₂ d : String) (m t : Nat) :
    notebookInitGenerator (some e₁) none
        = Except.ok ⟨defaultModelName, false, none⟩ ∧
      notebookInitGenerator (some e₁) none
        = notebookInitGenerator (some e₂) none ∧
      (∀ g, notebookInitGenerator (some e₁) none = Except.ok g →
        (generatorRequest g d m t).backend_preference
          = BackendPreference.Local) := by
  refine ⟨rfl, rfl, ?_⟩
  intro g h
  simp only [notebookInitGenerator, constructGenerator] at h
  cases h
  rfl

/-- Witness for C9 at concrete exception texts. -/
theorem construction_time_fallback_witness :
    (generatorRequest ⟨defaultModelName, false, none⟩ "two hosts" 1 5
        ).backend_preference = BackendPreference.Local :=
  (construction_time_fallback "boom" "crash" "two hosts" 1 5).2.2
    ⟨defaultModelName, false, none⟩ rfl

/-- C10: `generate_and_save` generates the topology code for the
description, writes it to the output file, and returns the path to the
saved file. -/
theorem generate_and_save_writes_and_returns_path (gen : String → String)
    (fs : List (String × String)) (description output_file : String) :
    (generate_and_save gen fs description output_file).2 = output_file ∧
      readFile (generate_and_save gen fs description output_file).1
          output_file = some (gen description) := by
  refine ⟨rfl, ?_⟩
  simp [generate_and_save, writeFile, readFile, List.find?]

/-- Helper: a fatal error is exactly a non-transient one. -/
theorem isFatal_eq_true_iff (e : BackendError) :
    e.isFatal = true ↔ e.isTransient = false := by
  unfold BackendError.isFatal
  cases e <;> simp [BackendError.isTransient]

/-- C1: for an AutoFallback request, when the Remote backend fails with a
fatal error on its first attempt and the Local backend succeeds, the
invocation returns a completion with `backend_used = Local` (and in
particular no GenerationError). -/
theorem autofallback_fatal_remote_uses_local
    (beh : BackendBehavior) (base ceiling : Nat) (req : GenerationRequest)
    (e : BackendError) (t : String)
    (hpref : req.backend_preference = BackendPreference.AutoFallback)
    (hn : 0 < req.max_attempts)
    (hremote : beh BackendKind.Remote 0 = Except.error e)
    (hfatal : e.isFatal = true)
    (hlocal : beh BackendKind.Local 0 = Except.ok t) :
    (invoke beh base ceiling req).result
      = Except.ok ⟨t, BackendKind.Local, 1, 0⟩ := by
  have htrans : e.isTransient = false := (isFatal_eq_true_iff e).mp hfatal
  obtain ⟨n, hmn⟩ : ∃ n, req.max_attempts = n + 1 :=
    ⟨req.max_attempts - 1, by omega⟩
  have hR : runAttempts (beh BackendKind.Remote) base ceiling (n + 1) 0
      = ⟨Except.error e, 1, []⟩ := by
    unfold runAttempts
    rw [hremote]
    simp [htrans]
  have hL : runAttempts (beh BackendKind.Local) base ceiling (n + 1) 0
      = ⟨Except.ok t, 1, []⟩ := by
    unfold runAttempts
    rw [hlocal]
  unfold invoke
  rw [hpref, hmn]
  simp [backendOrder, invokeBackends, hR, hL]

/-- Witness for C1: a one-attempt AutoFallback request against a backend
world whose Remote side raises AuthError and whose Local side succeeds. -/
theorem autofallback_fatal_remote_uses_local_witness :
    (invoke
        (fun b _ =>
          match b with
          | BackendKind.Remote => Except.error BackendError.AuthError
          | BackendKind.Local => Except.ok "code") 1 8
        ⟨"d", BackendPreference.AutoFallback, "m", 1, 5⟩).result
      = Except.ok ⟨"code", BackendKind.Local, 1, 0⟩ :=
  autofallback_fatal_remote_uses_local _ 1 8 _ BackendError.AuthError "code"
    rfl (by decide) rfl (by decide) rfl

/-- Helper: the retry loop performs at most `fuel` invocations. -/
theorem runAttempts_invocations_le (beh : Nat → Except BackendError String)
    (base ceiling : Nat) :
    ∀ fuel k, (runAttempts beh base ceiling fuel k).invocations ≤ fuel := by
  intro fuel
  induction fuel with
  | zero => intro k; simp [runAttempts]
  | succ n ih =>
    intro k
    unfold runAttempts
    cases h : beh k with
    | ok t => simp
    | error e =>
      by_cases hc : (e.isTransient && decide (0 < n)) = true
      · simp only [hc, if_true]
        exact Nat.succ_le_succ (ih (k + 1))
      · simp [hc]

/-- Helper: every per-backend invocation count recorded by the invoker is
bounded by the attempt budget. -/
theorem invokeBackends_perBackend_le (beh : BackendBehavior)
    (maxAttempts base ceiling : Nat) :
    ∀ bs, ∀ p ∈ (invokeBackends beh maxAttempts base ceiling bs).perBackend,
      p.2 ≤ maxAttempts := by
  intro bs
  induction bs with
  | nil => intro p hp; simp [invokeBackends] at hp
  | cons b rest ih =>
    intro p hp
    simp only [invokeBackends] at hp
    split at hp
    · simp at hp
      rw [hp]
      exact runAttempts_invocations_le (beh b) base ceiling maxAttempts 0
    · split at hp <;>
      · simp at hp
        rcases hp with hp | hp
        · rw [hp]
          exact runAttempts_invocations_le (beh b) base ceiling maxAttempts 0
        · exact ih p hp

/-- C4: a request with `max_attempts = n` yields at most `n` backend
invocations on each backend tried, and each invocation produces at most
one successful RawCompletion. -/
theorem invoke_attempts_bounded (beh : BackendBehavior) (base ceiling : Nat)
    (req : GenerationRequest) :
    (∀ p ∈ (invoke beh base ceiling req).perBackend,
        p.2 ≤ req.max_attempts) ∧
      ∀ r r', (invoke beh base ceiling req).result = Except.ok r →
        (invoke beh base ceiling req).result = Except.ok r' → r = r' := by
  constructor
  · intro p hp
    exact invokeBackends_perBackend_le beh req.max_attempts base ceiling
      (backendOrder req.backend_preference) p hp
  · intro r r' h h'
    rw [h] at h'
    exact Except.ok.inj h'

/-- Witness for C4: a one-attempt Remote request records exactly one
invocation on the Remote backend, within the budget. -/
theorem invoke_attempts_bounded_witness :
    ((BackendKind.Remote, 1) : BackendKind × Nat).2 ≤ 1 :=
  (invoke_attempts_bounded (fun _ _ => Except.ok "x") 0 0
      ⟨"d", BackendPreference.Remote, "m", 1, 0⟩).1
    (BackendKind.Remote, 1) (by decide)

/-- C5: the Response Extractor is total and follows the fixed ordered
strategy: first fenced region verbatim (`FencedBlock`); else the text
from the first import/definition line (`HeuristicSlice`); else the full
completion unchanged (`RawPassthrough`).  Totality is inherent in
`extract` being a function over all raw completions, the empty string
included. -/
theorem extract_total_ordered_strategy (raw : RawCompletion) :
    (∀ region, fencedRegion (toLines raw.text) = some region →
        extract raw = ⟨joinLines region, ExtractionMethod.FencedBlock⟩) ∧
      (∀ tail, fencedRegion (toLines raw.text) = none →
        sliceFromCodeStart (toLines raw.text) = some tail →
        extract raw = ⟨joinLines tail, ExtractionMethod.HeuristicSlice⟩) ∧
      (fencedRegion (toLines raw.text) = none →
        sliceFromCodeStart (toLines raw.text) = none →
        extract raw = ⟨raw.text, ExtractionMethod.RawPassthrough⟩) := by
  refine ⟨?_, ?_, ?_⟩
  · intro region h
    unfold extract
    rw [h]
  · intro tail h1 h2
    unfold extract
    rw [h1, h2]
  · intro h1 h2
    unfold extract
    rw [h1, h2]

/-- Witness for C5: a completion with neither fence nor import line
passes through unchanged. -/
theorem extract_total_ordered_strategy_witness :
    extract ⟨"no code here", BackendKind.Remote, 1, 0⟩
      = ⟨"no code here", ExtractionMethod.RawPassthrough⟩ :=
  (extract_total_ordered_strategy
      ⟨"no code here", BackendKind.Remote, 1, 0⟩).2.2 (by decide) (by decide)

/-- Helper: every backoff delay is bounded by the ceiling. -/
theorem backoffDelay_le_ceiling (base ceiling k : Nat) :
    backoffDelay base ceiling k ≤ ceiling :=
  min_le_right _ _

/-- Helper: the backoff schedule is monotone in the retry index. -/
theorem backoffDelay_mono (base ceiling : Nat) {j k : Nat} (h : j ≤ k) :
    backoffDelay base ceiling j ≤ backoffDelay base ceiling k :=
  min_le_min
    (Nat.mul_le_mul_left base (Nat.pow_le_pow_right (by norm_num) h))
    (le_refl ceiling)

/-- Helper: each delay is double the previous one, capped at the
ceiling. -/
theorem backoffDelay_succ (base ceiling k : Nat) :
    backoffDelay base ceiling (k + 1)
      = min (2 * backoffDelay base ceiling k) ceiling := by
  unfold backoffDelay
  have h2 : base * 2 ^ (k + 1) = 2 * (base * 2 ^ k) := by ring
  rw [h2]
  rcases le_total (base * 2 ^ k) ceiling with h | h
  · rw [min_eq_left h]
  · rw [min_eq_right h]
    rw [min_eq_right (by omega), min_eq_right (by omega)]

/-- Helper: against an always-transiently-failing backend, the retry loop
sleeps exactly the backoff schedule between its attempts. -/
theorem runAttempts_delays_transient (beh : Nat → Except BackendError String)
    (base ceiling : Nat)
    (h : ∀ i, ∃ e, beh i = Except.error e ∧ e.isTransient = true) :
    ∀ fuel k, (runAttempts beh base ceiling fuel k).delays
      = (List.range (fuel - 1)).map
          (fun i => backoffDelay base ceiling (k + i)) := by
  intro fuel
  induction fuel with
  | zero => intro k; simp [runAttempts]
  | succ n ih =>
    intro k
    obtain ⟨e, he, ht⟩ := h k
    unfold runAttempts
    rw [he]
    by_cases hn : 0 < n
    · have hcond : (e.isTransient && decide (0 < n)) = true := by
        rw [ht]
        simp [hn]
      simp only [hcond, if_true]
      obtain ⟨m, rfl⟩ : ∃ m, n = m + 1 := ⟨n - 1, by omega⟩
      show backoffDelay base ceiling k ::
          (runAttempts beh base ceiling (m + 1) (k + 1)).delays = _
      rw [ih (k + 1)]
      simp only [Nat.add_sub_cancel, Nat.succ_sub_one]
      rw [List.range_succ_eq_map, List.map_cons, List.map_map]
      congr 1
      apply List.map_congr_left
      intro i _
      simp only [Function.comp_apply]
      congr 1
      omega
    · have hn0 : n = 0 := by omega
      subst hn0
      simp [runAttempts]

/-- C6: for a backend that always fails with a transient error, the retry
delays produced by the invoker equal the backoff schedule, which is
non-decreasing, never exceeds the ceiling, and doubles at each step until
capped by the ceiling. -/
theorem backoff_delays_monotone_bounded
    (beh : Nat → Except BackendError String) (base ceiling fuel : Nat)
    (h : ∀ i, ∃ e, beh i = Except.error e ∧ e.isTransient = true) :
    ((runAttempts beh base ceiling fuel 0).delays
        = (List.range (fuel - 1)).map (backoffDelay base ceiling)) ∧
      List.Pairwise (· ≤ ·) (runAttempts beh base ceiling fuel 0).delays ∧
      (∀ d ∈ (runAttempts beh base ceiling fuel 0).delays, d ≤ ceiling) ∧
      ∀ k, backoffDelay base ceiling (k + 1)
        = min (2 * backoffDelay base ceiling k) ceiling := by
  have hd := runAttempts_delays_transient beh base ceiling h fuel 0
  simp only [Nat.zero_add] at hd
  refine ⟨hd, ?_, ?_, fun k => backoffDelay_succ base ceiling k⟩
  · rw [hd]
    exact List.Pairwise.map _
      (fun a b hab => backoffDelay_mono base ceiling (le_of_lt hab))
      (List.pairwise_lt_range _)
  · rw [hd]
    intro d hdm
    obtain ⟨i, _, rfl⟩ := List.mem_map.mp hdm
    exact backoffDelay_le_ceiling base ceiling i

/-- Witness for C6: four attempts against an always-rate-limited backend
with base delay 1 and ceiling 4 sleep the delays 1, 2, 4. -/
theorem backoff_delays_monotone_bounded_witness :
    List.Pairwise (· ≤ ·)
        (runAttempts (fun _ => Except.error BackendError.RateLimited)
          1 4 4 0).delays ∧
      (runAttempts (fun _ => Except.error BackendError.RateLimited)
          1 4 4 0).delays = [1, 2, 4] :=
  ⟨(backoff_delays_monotone_bounded
      (fun _ => Except.error BackendError.RateLimited) 1 4 4
      (fun _ => ⟨BackendError.RateLimited, rfl, rfl⟩)).2.1,
    by decide⟩

end LftAi
